import Mathlib

/-!
# Verification of the ngenix-exporter poll/decode/publish pipeline

A shallow embedding of the Go sources of `akastav/ngenix-exporter`:
the report-by-status counter loop (`processReport`, `fetchData`,
`buildReportURL`), the top100-by-path and http-status-by-code gauge
loops (`fetchRealtimeRequestsByPath` / `fetchRealtimeRequestsByCode`
with their fetch helpers), and the URL builders.

Machine integers are modelled as `Int`/`Nat`; Go `float64` metric values
are modelled as `Int` (every value written to the sink comes from a Go
`int` via `float64(...)`, exact for the magnitudes at play).  I/O-world
outcomes (the HTTP client's answer, JSON decoding success) are inputs of
the embedded fetch functions.  Prometheus's `WithLabelValues` panic on a
label-cardinality mismatch is modelled as `Except.error`.
-/

set_option autoImplicit false

namespace NgenixExporter

/-! ## The counter sink (prometheus `CounterVec`)

`trafficCounter` is declared with the variable labels
`["httpStatus", "realtimeTraffic"]`.  `WithLabelValues(lvs...).Add(v)`
first validates that the number of label values equals the number of
declared label dimensions; on mismatch prometheus panics with an
"inconsistent label cardinality" error.  On match it creates the child
series (starting at 0) if absent and adds `v`. -/

structure CounterVec where
  labelDims : List String
  entries : List (List String × Int)
deriving DecidableEq

/-- Add `v` to the series keyed by `lvs`, creating it at 0 first if absent. -/
def bumpEntries : List (List String × Int) → List String → Int → List (List String × Int)
  | [], lvs, v => [(lvs, v)]
  | (k, w) :: rest, lvs, v =>
    if k = lvs then (k, w + v) :: rest else (k, w) :: bumpEntries rest lvs v

/-- `vec.WithLabelValues(lvs...).Add(v)`: panics (modelled as `.error`)
unless `lvs` matches the declared label cardinality. -/
def withLabelValuesAdd (cv : CounterVec) (lvs : List String) (v : Int) :
    Except String CounterVec :=
  if lvs.length = cv.labelDims.length then
    Except.ok { cv with entries := bumpEntries cv.entries lvs v }
  else
    Except.error "inconsistent label cardinality"

/-- Current value of a counter series, `none` if the series was never created. -/
def counterLookup : List (List String × Int) → List String → Option Int
  | [], _ => none
  | (k, w) :: rest, lvs => if k = lvs then some w else counterLookup rest lvs

/-- The label dimensions `trafficCounter` is constructed with. -/
def trafficCounterLabels : List String := ["httpStatus", "realtimeTraffic"]

/-- The freshly registered `trafficCounter`: no series yet. -/
def trafficCounter0 : CounterVec := ⟨trafficCounterLabels, []⟩

/-! ## The `Report` shape decoded by the counter loop

Only the fields read by `processReport` are embedded (`Data`, and the
nil-ness of the report pointer); the `Query`, `GroupedByValuesDescription`
and `Summary` fields are decoded by the Go code but never read. -/

structure ReportGroupedBy where
  httpStatus : Int
  modelName : String
deriving DecidableEq

structure ReportMetrics where
  realtimeTraffic : Int
deriving DecidableEq

structure ReportValue where
  groupedBy : ReportGroupedBy
  metrics : ReportMetrics
deriving DecidableEq

structure ReportDataEntry where
  values : List ReportValue
  modelName : String
deriving DecidableEq

structure Report where
  data : Option (List ReportDataEntry)
  modelName : String
deriving DecidableEq

/-- Go `strconv.Itoa`. -/
def itoa (n : Int) : String :=
  if n < 0 then "-" ++ toString (-n).toNat else toString n.toNat

/-- The inner loop of `processReport`:
`trafficCounter.WithLabelValues(strconv.Itoa(value.GroupedBy.HTTPStatus)).Add(float64(value.Metrics.RealtimeTraffic))`
for each value, propagating a panic. -/
def processValues (cv : CounterVec) : List ReportValue → Except String CounterVec
  | [] => Except.ok cv
  | v :: rest =>
    match withLabelValuesAdd cv [itoa v.groupedBy.httpStatus] v.metrics.realtimeTraffic with
    | Except.error m => Except.error m
    | Except.ok cv' => processValues cv' rest

/-- The outer loop of `processReport` over `report.Data`. -/
def processEntries (cv : CounterVec) : List ReportDataEntry → Except String CounterVec
  | [] => Except.ok cv
  | e :: rest =>
    match processValues cv e.values with
    | Except.error m => Except.error m
    | Except.ok cv' => processEntries cv' rest

/-- `processReport`: returns early (sink untouched) on a nil report or nil
`report.Data`; otherwise iterates all data values under the mutex.  A
prometheus panic escapes as `.error`. -/
def processReport (cv : CounterVec) (report : Option Report) : Except String CounterVec :=
  match report with
  | none => Except.ok cv
  | some r =>
    match r.data with
    | none => Except.ok cv
    | some entries => processEntries cv entries

/-- The report delivered by the C1 scenario: one data point whose values
hold `httpStatus = 200` with metric value `5`. -/
def reportStatus200Value5 : Report :=
  { data := some [{ values := [{ groupedBy := { httpStatus := 200, modelName := "" },
                                 metrics := { realtimeTraffic := 5 } }],
                    modelName := "" }],
    modelName := "" }

/-! ## The gauge sinks (prometheus `GaugeVec` with one label)

`realtimeRequestsByPath` (label `path`) and `realtimeRequestsByCode`
(label `code`) are `GaugeVec`s with a single label dimension; the mappers
always pass exactly one label value, so `WithLabelValues(name).Set(v)`
never fails: it creates the series if absent and overwrites its value. -/

/-- A single-label gauge vector: label value ↦ current gauge value. -/
abbrev GaugeSink := List (String × Int)

/-- `vec.WithLabelValues(nm).Set(v)`: overwrite the series `nm`, creating
it if absent. -/
def gaugeSet : GaugeSink → String → Int → GaugeSink
  | [], nm, v => [(nm, v)]
  | (k, w) :: rest, nm, v =>
    if k = nm then (k, v) :: rest else (k, w) :: gaugeSet rest nm v

/-- Current value of the gauge series `nm`, `none` if never created. -/
def gaugeLookup : GaugeSink → String → Option Int
  | [], _ => none
  | (k, w) :: rest, nm => if k = nm then some w else gaugeLookup rest nm

/-! ## The category-list response shapes

`top100Response` and `httpStatusResponse` declare literally identical
`Categories` member shapes (`Name string`, `Metrics.RealtimeRequests int`),
so one `Category` type serves both.  Their `Query` echo fields are decoded
but never read by the mappers and are omitted. -/

structure Category where
  name : String
  realtimeRequests : Int
deriving DecidableEq

structure Top100Response where
  categories : Option (List Category)
  modelName : String
deriving DecidableEq

structure HttpStatusResponse where
  categories : Option (List Category)
  modelName : String
deriving DecidableEq

/-- The mapper loop shared verbatim by `fetchRealtimeRequestsByPath` and
`fetchRealtimeRequestsByCode`: skip a category whose `Name` is empty or
whose `Metrics.RealtimeRequests` is zero, otherwise
`WithLabelValues(category.Name).Set(float64(category.Metrics.RealtimeRequests))`. -/
def processCategories (s : GaugeSink) : List Category → GaugeSink
  | [] => s
  | c :: rest =>
    if c.name = "" ∨ c.realtimeRequests = 0 then
      processCategories s rest
    else
      processCategories (gaugeSet s c.name c.realtimeRequests) rest

/-- The per-tick mapping step of `fetchRealtimeRequestsByPath`: abandon the
tick ("Incomplete data received") when `response.ModelName == "" ||
response.Categories == nil`, otherwise run the category loop against the
`requests_by_path` gauge. -/
def processTop100 (s : GaugeSink) (r : Top100Response) : GaugeSink :=
  match r.categories with
  | none => s
  | some cs => if r.modelName = "" then s else processCategories s cs

/-- The per-tick mapping step of `fetchRealtimeRequestsByCode` (same guard,
against the `requests_by_code` gauge). -/
def processHTTPStatus (s : GaugeSink) (r : HttpStatusResponse) : GaugeSink :=
  match r.categories with
  | none => s
  | some cs => if r.modelName = "" then s else processCategories s cs

/-- The guard of the category loop as a filter predicate: categories that
actually reach the `Set` call. -/
def categoryKept (c : Category) : Bool :=
  !(c.name == "" || c.realtimeRequests == 0)

/-! ## Time and URL building

`time.Time` is embedded as a plain calendar/clock record; `IsZero` holds
exactly at Go's zero instant (January 1, year 1, 00:00:00).  The layout
`"2006-01-02"` zero-pads year/month/day to 4/2/2 digits. -/

structure GoTime where
  year : Nat
  month : Nat
  day : Nat
  hour : Nat
  minute : Nat
  sec : Nat
  nsec : Nat
deriving DecidableEq

def GoTime.zero : GoTime := ⟨1, 1, 1, 0, 0, 0, 0⟩

/-- Go `t.IsZero()`. -/
def GoTime.IsZero (t : GoTime) : Bool := decide (t = GoTime.zero)

def pad2 (n : Nat) : String :=
  if n < 10 then "0" ++ toString n else toString n

def pad4 (n : Nat) : String :=
  if n < 10 then "000" ++ toString n
  else if n < 100 then "00" ++ toString n
  else if n < 1000 then "0" ++ toString n
  else toString n

/-- Go `t.Format("2006-01-02")`. -/
def GoTime.formatDate (t : GoTime) : String :=
  pad4 t.year ++ "-" ++ pad2 t.month ++ "-" ++ pad2 t.day

def hexDigit (n : Nat) : Char :=
  if n < 10 then Char.ofNat (48 + n) else Char.ofNat (55 + n)

/-- UTF-8 encoding of one character, as byte values. -/
def utf8Bytes (c : Char) : List Nat :=
  let n := c.toNat
  if n < 128 then [n]
  else if n < 2048 then [192 + n / 64, 128 + n % 64]
  else if n < 65536 then [224 + n / 4096, 128 + (n / 64) % 64, 128 + n % 64]
  else [240 + n / 262144, 128 + (n / 4096) % 64, 128 + (n / 64) % 64, 128 + n % 64]

/-- One byte of Go `url.QueryEscape`: unreserved bytes (alphanumeric and
`-._~`) pass through, space becomes `+`, everything else `%XX`. -/
def escapeByte (b : Nat) : String :=
  if b = 32 then "+"
  else if (48 ≤ b ∧ b ≤ 57) ∨ (65 ≤ b ∧ b ≤ 90) ∨ (97 ≤ b ∧ b ≤ 122)
      ∨ b = 45 ∨ b = 46 ∨ b = 95 ∨ b = 126 then
    String.singleton (Char.ofNat b)
  else
    "%" ++ String.singleton (hexDigit (b / 16)) ++ String.singleton (hexDigit (b % 16))

/-- Go `url.QueryEscape`, applied byte-wise to the UTF-8 encoding. -/
def queryEscape (s : String) : String :=
  String.join ((s.data.flatMap utf8Bytes).map escapeByte)

/-- Go `url.Values.Encode()` on the already key-sorted parameter list
(`Encode` sorts its keys alphabetically; the call sites below list their
literal keys in that order). -/
def encodeQuery : List (String × String) → String
  | [] => ""
  | [(k, v)] => queryEscape k ++ "=" ++ queryEscape v
  | (k, v) :: rest => queryEscape k ++ "=" ++ queryEscape v ++ "&" ++ encodeQuery rest

/-- `buildReportURL` of the counter loop: `fmt.Sprintf` splicing the config
id and the fixed 09:00:00–09:59:59 window of `date` into the timeline
endpoint (no percent-encoding). -/
def buildReportURL (configID : String) (date : GoTime) : String :=
  "https://api.ngenix.net/reports/v1/timeline/configs?configId=" ++ configID ++
    "&start=" ++ (date.formatDate ++ "T09:00:00") ++
    "&end=" ++ (date.formatDate ++ "T09:59:59") ++
    "&metrics=realtimeRequests&interval=30&groupBy=httpStatus"

/-- The parameterized `getTop100URL(configId, date, metrics)`: empty string
when `configId == "" || date.IsZero() || metrics == nil`, otherwise the
top100 endpoint with the encoded query (keys sorted: configId, date,
metrics).  `metrics = none` models a nil Go slice. -/
def getTop100URL (configId : String) (date : GoTime) (metrics : Option (List String)) :
    String :=
  if configId = "" ∨ date.IsZero = true ∨ metrics = none then ""
  else
    "https://api.ngenix.net/reports/v1/analytical/top100?" ++
      encodeQuery [("configId", configId),
                   ("date", date.formatDate),
                   ("metrics", String.intercalate "," (metrics.getD []))]

/-- The parameterized `getHTTPStatusURL(configId, date, metrics)`: empty
string under the same guard, otherwise the httpstatuses endpoint with the
encoded query (keys sorted: configId, end, metrics, start). -/
def getHTTPStatusURL (configId : String) (date : GoTime) (metrics : Option (List String)) :
    String :=
  if configId = "" ∨ date.IsZero = true ∨ metrics = none then ""
  else
    "https://api.ngenix.net/reports/v1/analytical/httpstatuses?" ++
      encodeQuery [("configId", configId),
                   ("end", date.formatDate ++ "T23:59:59"),
                   ("metrics", String.intercalate "," (metrics.getD [])),
                   ("start", date.formatDate ++ "T00:00:00")]

/-- The zero-argument `getTop100URL()` variant (marked
`// TODO: Add variables configId, date, metrics` in the source): a fixed
constant URL. -/
def getTop100URLFixed : String :=
  "https://api.ngenix.net/reports/v1/analytical/top100?configId=91051&date=2025-01-02&metrics=realtimeRequests"

/-- The zero-argument `getHTTPStatusURL()` variant from the same file:
a fixed constant URL. -/
def getHTTPStatusURLFixed : String :=
  "https://api.ngenix.net/reports/v1/analytical/httpstatuses?configId=91051&start=2025-01-02T00:00:00&end=2025-01-02T23:59:59&metrics=realtimeRequests"

/-! ## The fetch functions

Each fetch reads the environment, may bail out before any request, and
otherwise hands the built URL to the HTTP client.  The outside world's
answer — transport failure, or a response with a status code and a body
that either JSON-decodes into the expected shape or not — is an input
(`HttpAttempt`).  `FetchStep.requested` records the URL passed to the
client (`none` when the function returned before issuing a request). -/

structure Env where
  username : String
  password : String
  configId : String
deriving DecidableEq

inductive HttpAttempt (α : Type) where
  | failed
  | responded (status : Nat) (body : Option α)
deriving DecidableEq

inductive FetchErr where
  | missingCreds
  | missingConfig
  | transport
  | badStatus (code : Nat)
  | decodeFailed
deriving DecidableEq

/-- The Go error text carried by each failure (the `%w`/`%v` details of
transport errors are abstracted). -/
def FetchErr.message : FetchErr → String
  | .missingCreds => "missing basic auth credentials"
  | .missingConfig => "missing config id"
  | .transport => "error executing request"
  | .badStatus code => "unexpected status code: " ++ toString code
  | .decodeFailed => "error decoding response"

structure FetchStep (α : Type) where
  result : Except FetchErr α
  requested : Option String

/-- Resolution of an issued GET: require status 200, then JSON-decode the
body (shared tail of all three fetch functions). -/
def resolveAttempt {α : Type} (url : String) (net : HttpAttempt α) : FetchStep α :=
  match net with
  | .failed => ⟨Except.error FetchErr.transport, some url⟩
  | .responded status body =>
    if status = 200 then
      match body with
      | some r => ⟨Except.ok r, some url⟩
      | none => ⟨Except.error FetchErr.decodeFailed, some url⟩
    else ⟨Except.error (FetchErr.badStatus status), some url⟩

/-- `fetchData` of the counter loop: missing `NGENIX_USERNAME`/
`NGENIX_PASSWORD` or missing `NGENIX_CONFIG_ID` fail before any request;
otherwise GET `buildReportURL(configID, time.Now())`. -/
def fetchData (env : Env) (now : GoTime) (net : HttpAttempt Report) : FetchStep Report :=
  if env.username = "" ∨ env.password = "" then ⟨Except.error FetchErr.missingCreds, none⟩
  else if env.configId = "" then ⟨Except.error FetchErr.missingConfig, none⟩
  else resolveAttempt (buildReportURL env.configId now) net

/-- `fetchDataTOP100` (parameterized variant): missing credentials fail
before any request; `NGENIX_CONFIG_ID` is read but not checked, and the
URL is built with `metrics = ["realtimeRequests"]` and `time.Now()`. -/
def fetchDataTOP100 (env : Env) (now : GoTime) (net : HttpAttempt Top100Response) :
    FetchStep Top100Response :=
  if env.username = "" ∨ env.password = "" then ⟨Except.error FetchErr.missingCreds, none⟩
  else resolveAttempt (getTop100URL env.configId now (some ["realtimeRequests"])) net

/-- `fetchDataHTTPStatus`: same shape against `getHTTPStatusURL`. -/
def fetchDataHTTPStatus (env : Env) (now : GoTime) (net : HttpAttempt HttpStatusResponse) :
    FetchStep HttpStatusResponse :=
  if env.username = "" ∨ env.password = "" then ⟨Except.error FetchErr.missingCreds, none⟩
  else resolveAttempt (getHTTPStatusURL env.configId now (some ["realtimeRequests"])) net

/-- `fetchDataTOP100` of the hard-coded variant: after the credential
check it requests `getTop100URL()` — the fixed constant URL — reading
neither the clock nor `NGENIX_CONFIG_ID`. -/
def fetchDataTOP100Fixed (env : Env) (net : HttpAttempt Top100Response) :
    FetchStep Top100Response :=
  if env.username = "" ∨ env.password = "" then ⟨Except.error FetchErr.missingCreds, none⟩
  else resolveAttempt getTop100URLFixed net

/-! ## One tick of each poll loop

A tick either hands the next loop iteration the (possibly updated) sink —
with the logged fetch-error message when the tick was abandoned — or, if
the mapper panics, tears the goroutine (and the process) down. -/

inductive TickResult (σ : Type) where
  | next (logged : Option String) (state : σ)
  | exit (msg : String)

/-- One iteration of `fetchReport`'s ticker loop: on a fetch error, log
`"error fetching data: ..."` and `continue`; otherwise run `processReport`
(whose prometheus panic would kill the process). -/
def reportTick (cv : CounterVec) (env : Env) (now : GoTime) (net : HttpAttempt Report) :
    TickResult CounterVec :=
  match (fetchData env now net).result with
  | Except.error e => TickResult.next (some ("error fetching data: " ++ e.message)) cv
  | Except.ok r =>
    match processReport cv (some r) with
    | Except.ok cv' => TickResult.next none cv'
    | Except.error m => TickResult.exit m

/-- One iteration of `fetchRealtimeRequestsByPath`'s ticker loop: on a
fetch error, log `"Error fetching data: ..."` and `continue`; otherwise
run the gauge mapper (which cannot fail; its data-quality log lines are
not modelled). -/
def top100Tick (s : GaugeSink) (env : Env) (now : GoTime) (net : HttpAttempt Top100Response) :
    TickResult GaugeSink :=
  match (fetchDataTOP100 env now net).result with
  | Except.error e => TickResult.next (some ("Error fetching data: " ++ e.message)) s
  | Except.ok r => TickResult.next none (processTop100 s r)

/-! ## Helper lemmas -/

theorem gaugeLookup_gaugeSet_self (s : GaugeSink) (nm : String) (v : Int) :
    gaugeLookup (gaugeSet s nm v) nm = some v := by
  induction s with
  | nil => simp [gaugeSet, gaugeLookup]
  | cons p rest ih =>
    obtain ⟨k, w⟩ := p
    by_cases h : k = nm
    · simp [gaugeSet, gaugeLookup, h]
    · simp [gaugeSet, gaugeLookup, h, ih]

theorem gaugeLookup_gaugeSet_ne (s : GaugeSink) (nm' nm : String) (v : Int)
    (h : nm' ≠ nm) : gaugeLookup (gaugeSet s nm' v) nm = gaugeLookup s nm := by
  induction s with
  | nil => simp [gaugeSet, gaugeLookup, h]
  | cons p rest ih =>
    obtain ⟨k, w⟩ := p
    by_cases hk : k = nm'
    · subst hk
      simp [gaugeSet, gaugeLookup, h]
    · by_cases hk2 : k = nm
      · simp [gaugeSet, gaugeLookup, hk, hk2, Ne.symm h]
      · simp [gaugeSet, gaugeLookup, hk, hk2, ih]

theorem processCategories_append (s : GaugeSink) (xs ys : List Category) :
    processCategories s (xs ++ ys) = processCategories (processCategories s xs) ys := by
  induction xs generalizing s with
  | nil => simp [processCategories]
  | cons c rest ih =>
    by_cases h : c.name = "" ∨ c.realtimeRequests = 0
    · simp [processCategories, h, ih]
    · simp [processCategories, h, ih]

theorem gaugeLookup_processCategories_of_no_live_hit (s : GaugeSink) (cs : List Category)
    (nm : String) (h : ∀ c ∈ cs, c.name = nm → c.realtimeRequests = 0) :
    gaugeLookup (processCategories s cs) nm = gaugeLookup s nm := by
  induction cs generalizing s with
  | nil => rfl
  | cons c rest ih =>
    have hrest : ∀ c' ∈ rest, c'.name = nm → c'.realtimeRequests = 0 := by
      intro c' hc' hnm
      exact h c' (List.mem_cons_of_mem c hc') hnm
    by_cases hg : c.name = "" ∨ c.realtimeRequests = 0
    · simp only [processCategories, if_pos hg]
      exact ih _ hrest
    · have hne : c.name ≠ nm := by
        intro heq
        rcases not_or.mp hg with ⟨h1, h2⟩
        exact h2 (h c (List.mem_cons_self c rest) heq)
      simp only [processCategories, if_neg hg]
      rw [ih _ hrest, gaugeLookup_gaugeSet_ne _ _ _ _ hne]

theorem categoryKept_iff (c : Category) :
    categoryKept c = true ↔ ¬(c.name = "" ∨ c.realtimeRequests = 0) := by
  simp [categoryKept]

theorem processCategories_filter (s : GaugeSink) (cs : List Category) :
    processCategories s (cs.filter categoryKept) = processCategories s cs := by
  induction cs generalizing s with
  | nil => rfl
  | cons c rest ih =>
    by_cases h : c.name = "" ∨ c.realtimeRequests = 0
    · have hk : categoryKept c = false := by
        rw [Bool.eq_false_iff, ne_eq, categoryKept_iff]
        tauto
      simp [List.filter, hk, processCategories, h, ih]
    · have hk : categoryKept c = true := (categoryKept_iff c).mpr h
      simp [List.filter, hk, processCategories, h, ih]

theorem processValues_cons_error (cv : CounterVec) (hdims : cv.labelDims.length = 2)
    (v : ReportValue) (vs : List ReportValue) :
    processValues cv (v :: vs) = Except.error "inconsistent label cardinality" := by
  have h1 : ((1 : Nat) = cv.labelDims.length) = False := by
    simp [hdims]
  simp [processValues, withLabelValuesAdd, h1]

theorem processEntries_error (cv : CounterVec) (hdims : cv.labelDims.length = 2)
    (es : List ReportDataEntry) (e : ReportDataEntry) (he : e ∈ es) (hv : e.values ≠ []) :
    processEntries cv es = Except.error "inconsistent label cardinality" := by
  induction es generalizing cv with
  | nil => cases he
  | cons hd rest ih =>
    rcases List.mem_cons.mp he with heq | hmem
    · subst heq
      obtain ⟨v, vs, hvs⟩ := List.exists_cons_of_ne_nil hv
      simp [processEntries, hvs, processValues_cons_error cv hdims]
    · match hhd : hd.values with
      | [] =>
        simp only [processEntries, hhd, processValues]
        exact ih cv hdims hmem
      | v :: vs =>
        simp [processEntries, hhd, processValues_cons_error cv hdims]

/-! ## Claims -/

/-- C1: the counter-based scenario — a tick delivering a report whose data
values contain value 5 for httpStatus 200 — does not accumulate: the very
first `WithLabelValues` call raises the label-cardinality panic (the
counter vector declares two label dimensions, the call passes one value),
so the first such tick tears the loop down and the counter never reads 10.
This evaluates the code at the claim's failing input. -/
theorem report_scenario_first_tick_tears_down :
    reportTick trafficCounter0 ⟨"user", "pass", "91051"⟩ ⟨2025, 1, 2, 9, 0, 0, 0⟩
        (HttpAttempt.responded 200 (some reportStatus200Value5)) =
      TickResult.exit "inconsistent label cardinality" := rfl

/-- C2: `trafficCounter` is declared with two label dimensions while
`processReport` passes exactly one label value, so for every report whose
data contains at least one value record, processing raises the
label-cardinality error instead of performing any addition — no counter
update by `processReport` ever succeeds on non-empty data (whatever series
the sink already holds). -/
theorem processReport_cardinality_error_on_data (es : List (List String × Int))
    (r : Report) (ds : List ReportDataEntry) (d : ReportDataEntry)
    (hdata : r.data = some ds) (hd : d ∈ ds) (hv : d.values ≠ []) :
    processReport ⟨trafficCounterLabels, es⟩ (some r) =
      Except.error "inconsistent label cardinality" := by
  simp only [processReport, hdata]
  exact processEntries_error _ (by simp [trafficCounterLabels]) ds d hd hv

theorem processReport_cardinality_error_on_data_witness :
    processReport ⟨trafficCounterLabels, []⟩
        (some ⟨some [⟨[⟨⟨404, ""⟩, ⟨7⟩⟩], ""⟩], ""⟩) =
      Except.error "inconsistent label cardinality" :=
  processReport_cardinality_error_on_data [] ⟨some [⟨[⟨⟨404, ""⟩, ⟨7⟩⟩], ""⟩], ""⟩
    [⟨[⟨⟨404, ""⟩, ⟨7⟩⟩], ""⟩] ⟨[⟨⟨404, ""⟩, ⟨7⟩⟩], ""⟩ rfl
    (List.mem_cons_self _ _) (by decide)

/-- C3 counterexample: the spec scenario's body
`{"categories":[{"name":"/index","metrics":{"realtimeRequests":42}}]}`
decodes with `ModelName == ""`, so the mapper abandons the tick
("Incomplete data received"): starting from an empty sink, no
`requests_by_path` entry exists afterwards, and the sink is unchanged. -/
theorem top100_scenario_as_stated_sets_nothing :
    gaugeLookup (processTop100 [] ⟨some [⟨"/index", 42⟩], ""⟩) "/index" = none ∧
    processTop100 [] ⟨some [⟨"/index", 42⟩], ""⟩ = [] :=
  ⟨rfl, rfl⟩

/-- C3 (amended): processing a decoded top100 response whose categories
contain the single record `/index` with realtimeRequests 42 — and whose
`modelName` is non-empty, as the mapper's completeness guard requires —
leaves the `requests_by_path` gauge for `path="/index"` reading exactly
42, from any prior sink state. -/
theorem top100_index42_gauge_reads_42 (s : GaugeSink) (mn : String) (hmn : mn ≠ "") :
    gaugeLookup (processTop100 s ⟨some [⟨"/index", 42⟩], mn⟩) "/index" = some 42 := by
  have h42 : ¬((("/index" : String) = "" ∨ ((42 : Int) = 0))) := by decide
  simp [processTop100, hmn, processCategories, h42, gaugeLookup_gaugeSet_self]

theorem top100_index42_gauge_reads_42_witness :
    gaugeLookup (processTop100 [] ⟨some [⟨"/index", 42⟩], "top100response"⟩) "/index" =
      some 42 :=
  top100_index42_gauge_reads_42 [] "top100response" (by decide)

/-- C4 counterexample: a record with metric value zero does not leave the
counter-updating mapper silent — `processReport` has no empty/zero skip
and its `WithLabelValues` call raises the label-cardinality error even for
a zero-valued record, so an error IS raised, contrary to the claim's
"holds for the counter-updating mapper". -/
theorem processReport_zero_value_raises :
    processReport trafficCounter0 (some ⟨some [⟨[⟨⟨200, ""⟩, ⟨0⟩⟩], ""⟩], ""⟩) =
      Except.error "inconsistent label cardinality" := rfl

/-- C4 (amended): for the gauge-updating mappers, records whose label name
is empty or whose metric value is zero are skipped without error: removing
exactly those records from any decoded response leaves the processing
result — hence every sink entry — unchanged (and the gauge mappers are
total functions, so no error is ever raised). -/
theorem gauge_mappers_skip_empty_or_zero (s : GaugeSink) (cs : List Category) (mn : String) :
    processTop100 s ⟨some (cs.filter categoryKept), mn⟩ = processTop100 s ⟨some cs, mn⟩ ∧
    processHTTPStatus s ⟨some (cs.filter categoryKept), mn⟩ =
      processHTTPStatus s ⟨some cs, mn⟩ := by
  refine ⟨?_, ?_⟩ <;>
    simp [processTop100, processHTTPStatus, processCategories_filter]

/-- C5 counterexample: the pair `("/a", 0)` is present in a successfully
decoded response (with non-empty modelName), yet after processing no sink
entry for `"/a"` exists at all — zero-valued pairs do not round-trip. -/
theorem gauge_zero_pair_absent :
    gaugeLookup (processTop100 [] ⟨some [⟨"/a", 0⟩], "model"⟩) "/a" = none := rfl

/-- C5 (amended): for every decoded response with non-empty `modelName`
and non-nil categories, every (label, value) pair whose label is non-empty
and whose value is non-zero — and that is not later overwritten by another
non-zero record with the same label — appears in the sink with exactly
that value immediately after processing, for both gauge mappers. -/
theorem gauge_roundtrip_last_occurrence (s : GaugeSink) (mn : String)
    (pre post : List Category) (c : Category) (hmn : mn ≠ "") (hname : c.name ≠ "")
    (hval : c.realtimeRequests ≠ 0)
    (hpost : ∀ c' ∈ post, c'.name = c.name → c'.realtimeRequests = 0) :
    gaugeLookup (processTop100 s ⟨some (pre ++ c :: post), mn⟩) c.name =
      some c.realtimeRequests ∧
    gaugeLookup (processHTTPStatus s ⟨some (pre ++ c :: post), mn⟩) c.name =
      some c.realtimeRequests := by
  have key : ∀ t : GaugeSink,
      gaugeLookup (processCategories t (pre ++ c :: post)) c.name =
        some c.realtimeRequests := by
    intro t
    rw [processCategories_append]
    have hg : ¬(c.name = "" ∨ c.realtimeRequests = 0) := by tauto
    show gaugeLookup (processCategories (processCategories t pre) (c :: post)) c.name = _
    simp only [processCategories, if_neg hg]
    rw [gaugeLookup_processCategories_of_no_live_hit _ post c.name hpost,
        gaugeLookup_gaugeSet_self]
  exact ⟨by simp only [processTop100, if_neg hmn]; exact key s,
         by simp only [processHTTPStatus, if_neg hmn]; exact key s⟩

theorem gauge_roundtrip_last_occurrence_witness :
    gaugeLookup (processTop100 [] ⟨some ([] ++ ⟨"/index", 7⟩ :: []), "m"⟩) "/index" =
      some 7 ∧
    gaugeLookup (processHTTPStatus [] ⟨some ([] ++ ⟨"/index", 7⟩ :: []), "m"⟩) "/index" =
      some 7 :=
  gauge_roundtrip_last_occurrence [] "m" [] [] ⟨"/index", 7⟩ (by decide) (by decide)
    (by decide) (by simp)

theorem resolveAttempt_error {α : Type} (url : String) (code : Nat) (body : Option α)
    (h : code ≠ 200 ∨ body = none) :
    ∃ e, (resolveAttempt url (HttpAttempt.responded code body)).result = Except.error e := by
  by_cases hcode : code = 200
  · subst hcode
    rcases h with h | h
    · exact absurd rfl h
    · subst h
      exact ⟨FetchErr.decodeFailed, rfl⟩
  · exact ⟨FetchErr.badStatus code, by simp [resolveAttempt, hcode]⟩

theorem resolveAttempt_requested {α : Type} (url : String) (net : HttpAttempt α) :
    (resolveAttempt url net).requested = some url := by
  cases net with
  | failed => rfl
  | responded status body =>
    by_cases h : status = 200
    · cases body <;> simp [resolveAttempt, h]
    · simp [resolveAttempt, h]

/-- C6: on any tick whose HTTP response carries a non-200 status or a body
that fails to decode, the fetch function returns an error and the tick
leaves the sink exactly as it was — for both the top100 gauge loop and the
report counter loop (the fetch may even fail earlier, on credentials; the
sink is untouched either way). -/
theorem fetch_error_leaves_sink_unchanged (s : GaugeSink) (cv : CounterVec) (env : Env)
    (now : GoTime) (code : Nat) (bodyT : Option Top100Response) (bodyR : Option Report)
    (hT : code ≠ 200 ∨ bodyT = none) (hR : code ≠ 200 ∨ bodyR = none) :
    ((∃ e, (fetchDataTOP100 env now (HttpAttempt.responded code bodyT)).result =
        Except.error e) ∧
      (∃ m, top100Tick s env now (HttpAttempt.responded code bodyT) =
        TickResult.next (some m) s)) ∧
    ((∃ e, (fetchData env now (HttpAttempt.responded code bodyR)).result =
        Except.error e) ∧
      (∃ m, reportTick cv env now (HttpAttempt.responded code bodyR) =
        TickResult.next (some m) cv)) := by
  have hTerr : ∃ e, (fetchDataTOP100 env now (HttpAttempt.responded code bodyT)).result =
      Except.error e := by
    by_cases hc : env.username = "" ∨ env.password = ""
    · exact ⟨FetchErr.missingCreds, by simp [fetchDataTOP100, hc]⟩
    · obtain ⟨e, he⟩ := resolveAttempt_error
        (getTop100URL env.configId now (some ["realtimeRequests"])) code bodyT hT
      exact ⟨e, by simp only [fetchDataTOP100, if_neg hc]; exact he⟩
  have hRerr : ∃ e, (fetchData env now (HttpAttempt.responded code bodyR)).result =
      Except.error e := by
    by_cases hc : env.username = "" ∨ env.password = ""
    · exact ⟨FetchErr.missingCreds, by simp [fetchData, hc]⟩
    · by_cases hcfg : env.configId = ""
      · exact ⟨FetchErr.missingConfig, by simp [fetchData, hc, hcfg]⟩
      · obtain ⟨e, he⟩ := resolveAttempt_error (buildReportURL env.configId now) code bodyR hR
        exact ⟨e, by simp only [fetchData, if_neg hc, if_neg hcfg]; exact he⟩
  obtain ⟨eT, heT⟩ := hTerr
  obtain ⟨eR, heR⟩ := hRerr
  refine ⟨⟨⟨eT, heT⟩, ⟨"Error fetching data: " ++ eT.message, ?_⟩⟩,
          ⟨⟨eR, heR⟩, ⟨"error fetching data: " ++ eR.message, ?_⟩⟩⟩
  · simp [top100Tick, heT]
  · simp [reportTick, heR]

theorem fetch_error_leaves_sink_unchanged_witness :
    ((∃ e, (fetchDataTOP100 ⟨"u", "p", "91051"⟩ ⟨2025, 1, 2, 0, 0, 0, 0⟩
        (HttpAttempt.responded 500 none)).result = Except.error e) ∧
      (∃ m, top100Tick [] ⟨"u", "p", "91051"⟩ ⟨2025, 1, 2, 0, 0, 0, 0⟩
        (HttpAttempt.responded 500 none) = TickResult.next (some m) [])) ∧
    ((∃ e, (fetchData ⟨"u", "p", "91051"⟩ ⟨2025, 1, 2, 0, 0, 0, 0⟩
        (HttpAttempt.responded 500 none)).result = Except.error e) ∧
      (∃ m, reportTick trafficCounter0 ⟨"u", "p", "91051"⟩ ⟨2025, 1, 2, 0, 0, 0, 0⟩
        (HttpAttempt.responded 500 none) = TickResult.next (some m) trafficCounter0)) :=
  fetch_error_leaves_sink_unchanged [] trafficCounter0 ⟨"u", "p", "91051"⟩
    ⟨2025, 1, 2, 0, 0, 0, 0⟩ 500 none none (Or.inl (by decide)) (Or.inl (by decide))

/-- C7: whenever `NGENIX_USERNAME` or `NGENIX_PASSWORD` is empty, every
fetch function fails with the missing-credentials error before any request
is issued; and whenever `NGENIX_CONFIG_ID` is empty, `fetchData` — the
fetch that requires and checks it — likewise fails with no request
issued. -/
theorem missing_env_no_request (env : Env) (now : GoTime) (netR : HttpAttempt Report)
    (netT : HttpAttempt Top100Response) (netH : HttpAttempt HttpStatusResponse) :
    ((env.username = "" ∨ env.password = "") →
      (fetchData env now netR).requested = none ∧
      (fetchData env now netR).result = Except.error FetchErr.missingCreds ∧
      (fetchDataTOP100 env now netT).requested = none ∧
      (fetchDataTOP100 env now netT).result = Except.error FetchErr.missingCreds ∧
      (fetchDataHTTPStatus env now netH).requested = none ∧
      (fetchDataHTTPStatus env now netH).result = Except.error FetchErr.missingCreds) ∧
    (env.configId = "" →
      (fetchData env now netR).requested = none ∧
      ∃ e, (fetchData env now netR).result = Except.error e) := by
  constructor
  · intro h
    simp [fetchData, fetchDataTOP100, fetchDataHTTPStatus, h]
  · intro hcfg
    by_cases hc : env.username = "" ∨ env.password = ""
    · exact ⟨by simp [fetchData, hc], FetchErr.missingCreds, by simp [fetchData, hc]⟩
    · exact ⟨by simp [fetchData, hc, hcfg], FetchErr.missingConfig,
        by simp [fetchData, hc, hcfg]⟩

theorem missing_env_no_request_witness :
    ((fetchData ⟨"", "", ""⟩ GoTime.zero HttpAttempt.failed).requested = none ∧
      (fetchData ⟨"", "", ""⟩ GoTime.zero HttpAttempt.failed).result =
        Except.error FetchErr.missingCreds ∧
      (fetchDataTOP100 ⟨"", "", ""⟩ GoTime.zero HttpAttempt.failed).requested = none ∧
      (fetchDataTOP100 ⟨"", "", ""⟩ GoTime.zero HttpAttempt.failed).result =
        Except.error FetchErr.missingCreds ∧
      (fetchDataHTTPStatus ⟨"", "", ""⟩ GoTime.zero HttpAttempt.failed).requested = none ∧
      (fetchDataHTTPStatus ⟨"", "", ""⟩ GoTime.zero HttpAttempt.failed).result =
        Except.error FetchErr.missingCreds) ∧
    ((fetchData ⟨"", "", ""⟩ GoTime.zero HttpAttempt.failed).requested = none ∧
      ∃ e, (fetchData ⟨"", "", ""⟩ GoTime.zero HttpAttempt.failed).result =
        Except.error e) :=
  ⟨(missing_env_no_request _ _ _ HttpAttempt.failed HttpAttempt.failed).1 (Or.inl rfl),
   (missing_env_no_request _ _ _ HttpAttempt.failed HttpAttempt.failed).2 rfl⟩

/-- C8: the poller variant whose fetch uses the zero-argument URL builders
requests a constant URL on every tick: the function reads neither a config
identifier nor the clock, and the URL it hands the HTTP client carries the
hard-coded `configId=91051` and the hard-coded date `2025-01-02` — not a
window derived from the current date.  (The source marks this with
`// TODO: Add variables configId, date, metrics`.) -/
theorem fixed_variant_requests_constant_url (env : Env) (net : HttpAttempt Top100Response)
    (hu : env.username ≠ "") (hp : env.password ≠ "") :
    (fetchDataTOP100Fixed env net).requested = some getTop100URLFixed ∧
    getTop100URLFixed =
      "https://api.ngenix.net/reports/v1/analytical/top100?configId=91051&date=2025-01-02&metrics=realtimeRequests" ∧
    getHTTPStatusURLFixed =
      "https://api.ngenix.net/reports/v1/analytical/httpstatuses?configId=91051&start=2025-01-02T00:00:00&end=2025-01-02T23:59:59&metrics=realtimeRequests" := by
  have h : ¬(env.username = "" ∨ env.password = "") := by tauto
  exact ⟨by simp [fetchDataTOP100Fixed, h, resolveAttempt_requested], rfl, rfl⟩

theorem fixed_variant_requests_constant_url_witness :
    (fetchDataTOP100Fixed ⟨"u", "p", "12345"⟩ HttpAttempt.failed).requested =
      some getTop100URLFixed ∧
    getTop100URLFixed =
      "https://api.ngenix.net/reports/v1/analytical/top100?configId=91051&date=2025-01-02&metrics=realtimeRequests" ∧
    getHTTPStatusURLFixed =
      "https://api.ngenix.net/reports/v1/analytical/httpstatuses?configId=91051&start=2025-01-02T00:00:00&end=2025-01-02T23:59:59&metrics=realtimeRequests" :=
  fixed_variant_requests_constant_url ⟨"u", "p", "12345"⟩ HttpAttempt.failed
    (by decide) (by decide)

/-- C9: every fetch error of a tick — configuration, transport, protocol
or decode, i.e. every `FetchErr` — is logged, the tick is abandoned with
the sink untouched, and the loop goes on to its next iteration; no such
error ever makes a tick exit the loop or the process, in either the
counter loop or the top100 gauge loop. -/
theorem fetch_error_tick_continues (cv : CounterVec) (s : GaugeSink) (env : Env)
    (now : GoTime) (netR : HttpAttempt Report) (netT : HttpAttempt Top100Response)
    (eR eT : FetchErr)
    (hR : (fetchData env now netR).result = Except.error eR)
    (hT : (fetchDataTOP100 env now netT).result = Except.error eT) :
    reportTick cv env now netR =
      TickResult.next (some ("error fetching data: " ++ eR.message)) cv ∧
    top100Tick s env now netT =
      TickResult.next (some ("Error fetching data: " ++ eT.message)) s := by
  constructor
  · simp [reportTick, hR]
  · simp [top100Tick, hT]

theorem fetch_error_tick_continues_witness :
    reportTick trafficCounter0 ⟨"", "", ""⟩ GoTime.zero HttpAttempt.failed =
      TickResult.next (some ("error fetching data: " ++ FetchErr.missingCreds.message))
        trafficCounter0 ∧
    top100Tick [] ⟨"", "", ""⟩ GoTime.zero HttpAttempt.failed =
      TickResult.next (some ("Error fetching data: " ++ FetchErr.missingCreds.message)) [] :=
  fetch_error_tick_continues trafficCounter0 [] ⟨"", "", ""⟩ GoTime.zero
    HttpAttempt.failed HttpAttempt.failed FetchErr.missingCreds FetchErr.missingCreds
    rfl rfl

/-- C10: the parameterized URL builders return the empty string exactly
when the config id is empty, the date is the zero time, or the metrics
slice is nil; on all other inputs they return their endpoint URL whose
query string carries the percent-encoded configId, the date formatted as
YYYY-MM-DD (as the single `date`, resp. as `start=...T00:00:00` and
`end=...T23:59:59`), and the metrics joined by commas, percent-encoded. -/
theorem url_builders_empty_iff_and_shape (c : String) (d : GoTime)
    (m : Option (List String)) :
    (getTop100URL c d m = "" ↔ (c = "" ∨ d.IsZero = true ∨ m = none)) ∧
    (getHTTPStatusURL c d m = "" ↔ (c = "" ∨ d.IsZero = true ∨ m = none)) ∧
    (∀ ms, m = some ms → c ≠ "" → d.IsZero = false →
      getTop100URL c d m =
        "https://api.ngenix.net/reports/v1/analytical/top100?" ++
          ("configId" ++ "=" ++ queryEscape c ++ "&" ++
            ("date" ++ "=" ++ queryEscape d.formatDate ++ "&" ++
              ("metrics" ++ "=" ++ queryEscape (String.intercalate "," ms)))) ∧
      getHTTPStatusURL c d m =
        "https://api.ngenix.net/reports/v1/analytical/httpstatuses?" ++
          ("configId" ++ "=" ++ queryEscape c ++ "&" ++
            ("end" ++ "=" ++ queryEscape (d.formatDate ++ "T23:59:59") ++ "&" ++
              ("metrics" ++ "=" ++ queryEscape (String.intercalate "," ms) ++ "&" ++
                ("start" ++ "=" ++ queryEscape (d.formatDate ++ "T00:00:00")))))) := by
  have hcfg : queryEscape "configId" = "configId" := by decide
  have hdate : queryEscape "date" = "date" := by decide
  have hmet : queryEscape "metrics" = "metrics" := by decide
  have hend : queryEscape "end" = "end" := by decide
  have hstart : queryEscape "start" = "start" := by decide
  refine ⟨⟨?_, ?_⟩, ⟨?_, ?_⟩, ?_⟩
  · intro h
    by_contra hc
    rw [getTop100URL, if_neg hc] at h
    have hlen := congrArg String.length h
    simp [String.length_append] at hlen
    exact absurd hlen.1 (by decide)
  · intro h
    rw [getTop100URL, if_pos h]
  · intro h
    by_contra hc
    rw [getHTTPStatusURL, if_neg hc] at h
    have hlen := congrArg String.length h
    simp [String.length_append] at hlen
    exact absurd hlen.1 (by decide)
  · intro h
    rw [getHTTPStatusURL, if_pos h]
  · intro ms hm hc hz
    subst hm
    have hcond : ¬(c = "" ∨ d.IsZero = true ∨ (some ms : Option (List String)) = none) := by
      simp [hc, hz]
    constructor
    · rw [getTop100URL, if_neg hcond]
      simp only [encodeQuery, Option.getD_some]
      rw [hcfg, hdate, hmet]
    · rw [getHTTPStatusURL, if_neg hcond]
      simp only [encodeQuery, Option.getD_some]
      rw [hcfg, hend, hmet, hstart]

theorem url_builders_empty_iff_and_shape_witness :
    getTop100URL "91051" ⟨2025, 1, 2, 0, 0, 0, 0⟩ (some ["realtimeRequests"]) =
      "https://api.ngenix.net/reports/v1/analytical/top100?" ++
        ("configId" ++ "=" ++ queryEscape "91051" ++ "&" ++
          ("date" ++ "=" ++ queryEscape (GoTime.formatDate ⟨2025, 1, 2, 0, 0, 0, 0⟩) ++ "&" ++
            ("metrics" ++ "=" ++ queryEscape (String.intercalate "," ["realtimeRequests"])))) ∧
    getHTTPStatusURL "91051" ⟨2025, 1, 2, 0, 0, 0, 0⟩ (some ["realtimeRequests"]) =
      "https://api.ngenix.net/reports/v1/analytical/httpstatuses?" ++
        ("configId" ++ "=" ++ queryEscape "91051" ++ "&" ++
          ("end" ++ "=" ++
              queryEscape (GoTime.formatDate ⟨2025, 1, 2, 0, 0, 0, 0⟩ ++ "T23:59:59") ++ "&" ++
            ("metrics" ++ "=" ++ queryEscape (String.intercalate "," ["realtimeRequests"]) ++
                "&" ++
              ("start" ++ "=" ++
                queryEscape (GoTime.formatDate ⟨2025, 1, 2, 0, 0, 0, 0⟩ ++ "T00:00:00"))))) :=
  (url_builders_empty_iff_and_shape "91051" ⟨2025, 1, 2, 0, 0, 0, 0⟩
      (some ["realtimeRequests"])).2.2 ["realtimeRequests"] rfl (by decide) (by decide)

end NgenixExporter
